import Mathlib

/-!
Shallow embedding of the two scripts in
`macos-eye-contact-tool/Models/`: `conversion_script.py` (the Converter)
and `inspect_model.py` (the Inspector).

Both scripts are thin wrappers over an external ML framework
(TensorFlow 1.x graph APIs and the coremltools converter).  The framework
is modelled as an explicit environment of deterministic functions: each
framework call the scripts make becomes a field of the environment, taking
exactly the arguments the script passes and returning either a value or an
error message (a Python exception raised by the framework).  The scripts
themselves are translated statement by statement into total Lean
functions that return an effect record (framework-call arguments, files
written, models saved, console events) together with an outcome
(`Except` models Python exception propagation).
-/

namespace EyeContact

/-- Model of `os.path.join(dir, file)` in the common POSIX case used by
both scripts (relative second component, no trailing separator). -/
def pathJoin (dir file : String) : String := dir ++ "/" ++ file

/-- Model of Python `name.split(':')[0]`: the prefix of `name` before the
first `':'` (the whole string when there is no `':'`). -/
def stripPort (name : String) : String :=
  ⟨name.data.takeWhile fun c => c ≠ ':'⟩

/-- Model of a `tf.constant` as created by the Converter: a boolean value
together with the graph name given to the constant node. -/
structure TFConstant where
  value : Bool
  name : String
deriving DecidableEq, Repr

/-- Description of one tensor produced by a graph operation: its name,
its (possibly partially unknown) shape, and its element data type.  Used
by the Inspector's listing. -/
structure TensorInfo where
  name : String
  shape : List (Option Nat)
  dtype : String
deriving DecidableEq, Repr

/-- One operation of a loaded computation graph: its name, its type
string (for example `"Placeholder"`), and the tensors it outputs. -/
structure Operation where
  name : String
  type : String
  outputs : List TensorInfo
deriving DecidableEq, Repr

/-- A loaded computation graph: the list returned by
`graph.get_operations()`. -/
structure Graph where
  operations : List Operation
deriving DecidableEq, Repr

/-- Restored parameter values of a checkpoint (variable name to values);
opaque data threaded from `saver.restore` into graph freezing. -/
abbrev Weights := List (String × List Int)

/-- A Core ML `ct.TensorType` argument: a tensor name and an optional
shape (the Converter passes output tensor types without a shape). -/
structure CTTensorType where
  name : String
  shape : Option (List Nat)
deriving DecidableEq, Repr

/-- The model artifact returned by `ct.convert`: the input and output
names its spec description declares (what `mlmodel.get_spec()` reports
and `mlmodel.save` persists). -/
structure MLModel where
  declaredInputs : List String
  declaredOutputs : List String
deriving DecidableEq, Repr

/-- Environment of framework calls made by the Converter.  Each field
models one external API call with exactly the arguments the script
passes; `Except String` models a framework-raised Python exception
carrying a message.  Fields are Lean functions, so a fixed environment
(fixed on-disk checkpoint state) is deterministic. -/
structure ConvEnv where
  /-- The call `tf.compat.v1.train.import_meta_graph(path, clear_devices=True,
  input_map=...)`: receives the meta path and the input map. -/
  importMetaGraph : String → List (String × TFConstant) → Except String Graph
  /-- The call `tf.train.latest_checkpoint(dir)`: `none` when no checkpoint
  can be located in the directory. -/
  latestCheckpoint : String → Option String
  /-- The call `saver.restore(sess, ckpt)`: yields the restored weights. -/
  restore : Graph → String → Except String Weights
  /-- The call `tf.compat.v1.graph_util.convert_variables_to_constants(sess,
  graph_def, output_node_names)`, composed with `SerializeToString()`:
  yields the serialized frozen graph bytes. -/
  freezeGraph : Graph → Weights → List String → Except String (List Nat)
  /-- The call `ct.convert(frozen_graph_def, source='tensorflow', outputs=...,
  inputs=..., minimum_deployment_target=ct.target.macOS12)`. -/
  ctConvert : List Nat → List CTTensorType → List CTTensorType → Except String MLModel

/-- The arguments of `convert_tf_checkpoint_to_coreml`.  The Python dict
`input_tensor_map_shapes` is modelled as an association list in insertion
order; a value of `none` models the Python shape `None`. -/
structure ConvArgs where
  checkpoint_dir : String
  meta_filename : String
  output_mlmodel_path : String
  input_tensor_map_shapes : List (String × Option (List Nat))
  output_tensor_names : List String
  phase_train_tensor_name : String

/-- Errors the Converter can terminate with: the explicit `ValueError`
it raises itself, or a framework exception propagating through it. -/
inductive ConvError where
  | valueError (msg : String)
  | framework (msg : String)
deriving DecidableEq, Repr

/-- Effects of a Converter run: the arguments of every
`import_meta_graph` call, every file written (`frozen_model.pb`), the
arguments of every `ct.convert` call, and every saved model artifact. -/
structure ConvEffects where
  metaGraphCalls : List (String × List (String × TFConstant))
  filesWritten : List (String × List Nat)
  ctConvertCalls : List (List Nat × List CTTensorType × List CTTensorType)
  savedModels : List (String × MLModel)
deriving DecidableEq, Repr

/-- The constant `tf.constant(False, dtype=tf.bool,
name='phase_train_const_val')` created at the top of the Converter. -/
def phase_train_const : TFConstant := ⟨false, "phase_train_const_val"⟩

/-- The loop building `coreml_inputs`: for each `(name_with_port, shape)`
entry of the input map, skip the entry when the key equals
`phase_train_tensor_name` (`continue`), otherwise append
`ct.TensorType(name=name_with_port.split(':')[0], shape=shape)`. -/
def coremlInputsLoop :
    List (String × Option (List Nat)) → String → List CTTensorType
  | [], _ => []
  | (name_with_port, shape) :: rest, pt =>
    if name_with_port = pt then
      coremlInputsLoop rest pt
    else
      ⟨stripPort name_with_port, shape⟩ :: coremlInputsLoop rest pt

/-- Translation of `convert_tf_checkpoint_to_coreml`, statement by
statement: create the phase-train constant; import the meta graph with
the input map `{phase_train_tensor_name: phase_train_const}`; look up the
latest checkpoint, raising `ValueError` when none is found; restore the
weights; freeze the graph at the output node names with ports stripped;
write the frozen bytes to `checkpoint_dir/frozen_model.pb`; build the
Core ML input types (skipping the phase-train entry); call `ct.convert`
with those inputs and the unstripped output tensor names; save the
resulting model at the output path.  Console prints carry no data beyond
these effects and are not recorded. -/
def convert_tf_checkpoint_to_coreml (env : ConvEnv) (a : ConvArgs) :
    ConvEffects × Except ConvError Unit :=
  let metaPath := pathJoin a.checkpoint_dir a.meta_filename
  let inputMap := [(a.phase_train_tensor_name, phase_train_const)]
  let eff0 : ConvEffects :=
    { metaGraphCalls := [(metaPath, inputMap)]
      filesWritten := []
      ctConvertCalls := []
      savedModels := [] }
  match env.importMetaGraph metaPath inputMap with
  | .error m => (eff0, .error (.framework m))
  | .ok graph =>
    match env.latestCheckpoint a.checkpoint_dir with
    | none =>
      (eff0, .error (.valueError
        ("No checkpoint found in directory: " ++ a.checkpoint_dir)))
    | some latest_ckpt =>
      match env.restore graph latest_ckpt with
      | .error m => (eff0, .error (.framework m))
      | .ok weights =>
        let output_node_names_for_freezing :=
          a.output_tensor_names.map stripPort
        match env.freezeGraph graph weights output_node_names_for_freezing with
        | .error m => (eff0, .error (.framework m))
        | .ok frozen_graph_def =>
          let frozen_pb_path := pathJoin a.checkpoint_dir "frozen_model.pb"
          let eff1 := { eff0 with
            filesWritten := [(frozen_pb_path, frozen_graph_def)] }
          let coreml_inputs :=
            coremlInputsLoop a.input_tensor_map_shapes a.phase_train_tensor_name
          let coreml_outputs : List CTTensorType :=
            a.output_tensor_names.map fun name => ⟨name, none⟩
          let eff2 := { eff1 with
            ctConvertCalls := [(frozen_graph_def, coreml_inputs, coreml_outputs)] }
          match env.ctConvert frozen_graph_def coreml_inputs coreml_outputs with
          | .error m => (eff2, .error (.framework m))
          | .ok mlmodel =>
            ({ eff2 with
                savedModels := [(a.output_mlmodel_path, mlmodel)] }, .ok ())

/-- Environment of framework calls made by the Inspector, plus the one
filesystem probe its `__main__` block performs. -/
structure InspEnv where
  /-- The call `tf.compat.v1.train.import_meta_graph(path, clear_devices=True)`
  (no input map in the Inspector). -/
  importMetaGraph : String → Except String Graph
  /-- The call `tf.train.latest_checkpoint(dir)`. -/
  latestCheckpoint : String → Option String
  /-- The call `saver.restore(sess, ckpt)` (the Inspector only uses its
  side effect, so success carries no data). -/
  restore : Graph → String → Except String Unit
  /-- The call `os.path.exists(path)` in the `__main__` block. -/
  pathExists : String → Bool

/-- Console events emitted by the Inspector, one constructor per `print`
statement of the script, carrying the data interpolated into the
message. -/
inductive InspEvent where
  /-- `Restoring weights from: {latest_ckpt}` -/
  | restoringFrom (path : String)
  /-- `Weights restored successfully.` -/
  | weightsRestored
  /-- `Error: No checkpoint found in directory: {checkpoint_dir}` -/
  | errorNoCheckpoint (dir : String)
  /-- `All operations and tensors in the graph:` -/
  | allOpsHeader
  /-- `- Operation Name: {op.name} (Type: {op.type})` -/
  | opListed (name type : String)
  /-- `Output Tensors from Op '{op.name}':` -/
  | outputTensorsHeader (opName : String)
  /-- `- Tensor Name: {tensor.name} (Shape: .., DType: ..)` -/
  | tensorListed (name : String) (shape : List (Option Nat)) (dtype : String)
  /-- `--- Inputs (Placeholders) ---` -/
  | placeholdersHeader
  /-- `Potential Input (Placeholder Op): {ph_op.name}` -/
  | placeholderListed (name : String)
  /-- `Tensor Name: .., Shape: .., DType: ..` under a placeholder op -/
  | placeholderTensor (name : String) (shape : List (Option Nat)) (dtype : String)
  /-- `No explicit Placeholder ops found. ...` -/
  | noPlaceholders
  /-- the block of static hint lines under `--- Hints for finding I/O Tensors ---` -/
  | hintsPrinted
  /-- `Error: Meta graph file not found at {path}` -/
  | metaNotFound (path : String)
  /-- `An error occurred during model inspection: {e}` -/
  | errorDuring (msg : String)
  /-- the output of `traceback.print_exc()` -/
  | tracebackPrinted
deriving DecidableEq, Repr

/-- Events printed for one operation in the Inspector's main listing
loop: the operation line, then (when the operation has outputs) the
output-tensors header and one line per output tensor. -/
def listOpEvents (op : Operation) : List InspEvent :=
  InspEvent.opListed op.name op.type ::
    (if op.outputs.length > 0 then
      InspEvent.outputTensorsHeader op.name ::
        op.outputs.map (fun t => InspEvent.tensorListed t.name t.shape t.dtype)
    else [])

/-- Events printed for one placeholder operation in the Inspector's
filtered listing: the placeholder line, then one line per output
tensor. -/
def listPlaceholderEvents (op : Operation) : List InspEvent :=
  InspEvent.placeholderListed op.name ::
    op.outputs.map (fun t => InspEvent.placeholderTensor t.name t.shape t.dtype)

/-- Translation of `inspect_checkpoint_model`, statement by statement:
load the meta graph; look up the latest checkpoint, printing an error
and returning normally when none exists; otherwise restore the weights;
list every operation with its output tensors; list the placeholder-type
operations (or a message when there are none); print the static hints.
The result is (events printed, outcome), where an `.error` outcome is an
exception raised by a framework call propagating out of the function. -/
def inspect_checkpoint_model (env : InspEnv)
    (checkpoint_dir meta_graph_filename : String) :
    List InspEvent × Except String Unit :=
  match env.importMetaGraph (pathJoin checkpoint_dir meta_graph_filename) with
  | .error m => ([], .error m)
  | .ok graph =>
    match env.latestCheckpoint checkpoint_dir with
    | none => ([.errorNoCheckpoint checkpoint_dir], .ok ())
    | some latest_ckpt =>
      match env.restore graph latest_ckpt with
      | .error m => ([.restoringFrom latest_ckpt], .error m)
      | .ok () =>
        let opEvents := graph.operations.flatMap listOpEvents
        let placeholders :=
          graph.operations.filter (fun op => op.type = "Placeholder")
        let phEvents :=
          if placeholders.isEmpty then [InspEvent.noPlaceholders]
          else placeholders.flatMap listPlaceholderEvents
        ([.restoringFrom latest_ckpt, .weightsRestored, .allOpsHeader]
          ++ opEvents ++ [.placeholdersHeader] ++ phEvents
          ++ [.hintsPrinted], .ok ())

/-- Translation of the Inspector's `__main__` block: with the hard-coded
directory `OriginalModel/L` and meta file `L.meta`, probe for the meta
file; when it is missing, print the error and stop without calling
`inspect_checkpoint_model`; otherwise call it inside `try/except`, and on
an exception print its message and a traceback.  The result is (events
printed, whether `inspect_checkpoint_model` was called, outcome), where
the outcome would be `.error` only if an exception escaped the block. -/
def inspectorMain (env : InspEnv) :
    List InspEvent × Bool × Except String Unit :=
  let checkpoint_base_dir := "OriginalModel/L"
  let meta_file := "L.meta"
  if !(env.pathExists (pathJoin checkpoint_base_dir meta_file)) then
    ([.metaNotFound (pathJoin checkpoint_base_dir meta_file)], false, .ok ())
  else
    let r := inspect_checkpoint_model env checkpoint_base_dir meta_file
    match r.2 with
    | .ok () => (r.1, true, .ok ())
    | .error m => (r.1 ++ [.errorDuring m, .tracebackPrinted], true, .ok ())

/-! ### Helper characterizations of the Converter's effects -/

/-- Helper: the file-writing effect of a Converter run, as a function of
only the checkpoint directory, the meta filename, the output tensor
names and the control-tensor name (not of the output model path nor of
the input tensor map). -/
def frozenFileEffect (env : ConvEnv) (dir meta : String)
    (outs : List String) (pt : String) : List (String × List Nat) :=
  match env.importMetaGraph (pathJoin dir meta) [(pt, phase_train_const)] with
  | .error _ => []
  | .ok graph =>
    match env.latestCheckpoint dir with
    | none => []
    | some ck =>
      match env.restore graph ck with
      | .error _ => []
      | .ok w =>
        match env.freezeGraph graph w (outs.map stripPort) with
        | .error _ => []
        | .ok fb => [(pathJoin dir "frozen_model.pb", fb)]

/-- Helper: the files a Converter run writes are exactly
`frozenFileEffect` of the run's checkpoint directory, meta filename,
output tensor names and control-tensor name. -/
theorem filesWritten_eq_frozenFileEffect (env : ConvEnv) (a : ConvArgs) :
    (convert_tf_checkpoint_to_coreml env a).1.filesWritten =
      frozenFileEffect env a.checkpoint_dir a.meta_filename
        a.output_tensor_names a.phase_train_tensor_name := by
  simp only [convert_tf_checkpoint_to_coreml, frozenFileEffect]
  repeat' split
  all_goals simp_all

/-- Helper: the `coreml_inputs` loop computes exactly the input map
filtered of the control-tensor entry, with ports stripped from the
remaining keys. -/
theorem coremlInputsLoop_eq_filter_map
    (m : List (String × Option (List Nat))) (pt : String) :
    coremlInputsLoop m pt =
      (m.filter fun p => p.1 ≠ pt).map fun p => (⟨stripPort p.1, p.2⟩ : CTTensorType) := by
  induction m with
  | nil => rfl
  | cons hd tl ih =>
    obtain ⟨name, shape⟩ := hd
    by_cases h : name = pt
    · simp [coremlInputsLoop, h, ih]
    · simp [coremlInputsLoop, h, ih]

/-! ### Sample environments and arguments used by the witnesses -/

/-- Sample loaded graph used by concrete witnesses. -/
def sampleGraph : Graph :=
  ⟨[⟨"inputs/input_img", "Placeholder",
      [⟨"inputs/input_img:0", [none, some 48, some 64, some 3], "float32"⟩]⟩,
    ⟨"tower_0/warping_model/Tanh", "Tanh",
      [⟨"tower_0/warping_model/Tanh:0", [none, some 48, some 64, some 2], "float32"⟩]⟩]⟩

/-- Sample Converter arguments mirroring the script's hard-coded
right-eye configuration. -/
def sampleArgs : ConvArgs :=
  { checkpoint_dir := "OriginalModel/R"
    meta_filename := "R.meta"
    output_mlmodel_path := "OriginalModel/R/RightEyeWarp.mlpackage"
    input_tensor_map_shapes :=
      [("inputs/input_img:0", some [1, 48, 64, 3]),
       ("inputs/input_fp:0", some [1, 48, 64, 12]),
       ("inputs/input_ang:0", some [1, 2]),
       ("model_control/phase_train:0", none)]
    output_tensor_names := ["tower_0/warping_model/Tanh:0"]
    phase_train_tensor_name := "model_control/phase_train:0" }

/-- Variant of `sampleArgs` with a different output path and a different
input map, used by the determinism witness. -/
def sampleArgsAlt : ConvArgs :=
  { sampleArgs with
    output_mlmodel_path := "elsewhere/Other.mlpackage"
    input_tensor_map_shapes :=
      [("inputs/input_img:0", some [1, 48, 64, 3]),
       ("model_control/phase_train:0", none)] }

/-- Sample environment in which every framework call succeeds and
`ct.convert` follows the coremltools naming contract (model outputs are
named after the requested tensors with ports stripped). -/
def envFull : ConvEnv :=
  { importMetaGraph := fun _ _ => .ok sampleGraph
    latestCheckpoint := fun dir => some (dir ++ "/model.ckpt-250000")
    restore := fun _ _ => .ok [("w", [1, 2])]
    freezeGraph := fun _ _ _ => .ok [10, 20, 30]
    ctConvert := fun _ ins outs =>
      .ok ⟨ins.map (fun t => t.name), outs.map (fun t => stripPort t.name)⟩ }

/-- Sample environment whose directory holds no checkpoint. -/
def envNoCkpt : ConvEnv :=
  { envFull with latestCheckpoint := fun _ => none }

/-- Sample environment whose meta-graph import raises. -/
def envImportFail : ConvEnv :=
  { envFull with importMetaGraph := fun _ _ => .error "boom-import" }

/-- Sample environment whose weight restore raises. -/
def envRestoreFail : ConvEnv :=
  { envFull with restore := fun _ _ => .error "boom-restore" }

/-- Sample environment whose graph freezing raises. -/
def envFreezeFail : ConvEnv :=
  { envFull with freezeGraph := fun _ _ _ => .error "boom-freeze" }

/-- Sample environment whose Core ML conversion raises. -/
def envConvertFail : ConvEnv :=
  { envFull with ctConvert := fun _ _ _ => .error "boom-convert" }

/-! ### Converter claims -/

/-- Claim C1: for every checkpoint directory in which no checkpoint can
be located (and whose meta graph loads, the load preceding the
checkpoint lookup in the code), the Converter fails with the explicit
`ValueError` and produces neither the frozen intermediate graph file nor
the output model artifact. -/
theorem converter_no_checkpoint_raises_value_error
    (env : ConvEnv) (a : ConvArgs) (g : Graph)
    (himp : env.importMetaGraph (pathJoin a.checkpoint_dir a.meta_filename)
        [(a.phase_train_tensor_name, phase_train_const)] = .ok g)
    (hck : env.latestCheckpoint a.checkpoint_dir = none) :
    (convert_tf_checkpoint_to_coreml env a).2 =
        .error (.valueError
          ("No checkpoint found in directory: " ++ a.checkpoint_dir)) ∧
    (convert_tf_checkpoint_to_coreml env a).1.filesWritten = [] ∧
    (convert_tf_checkpoint_to_coreml env a).1.savedModels = [] := by
  simp [convert_tf_checkpoint_to_coreml, himp, hck]

/-- Witness for C1 at the sample configuration over a directory with no
checkpoint. -/
theorem converter_no_checkpoint_raises_value_error_witness :
    (convert_tf_checkpoint_to_coreml envNoCkpt sampleArgs).2 =
        .error (.valueError
          ("No checkpoint found in directory: " ++ sampleArgs.checkpoint_dir)) ∧
    (convert_tf_checkpoint_to_coreml envNoCkpt sampleArgs).1.filesWritten = [] ∧
    (convert_tf_checkpoint_to_coreml envNoCkpt sampleArgs).1.savedModels = [] :=
  converter_no_checkpoint_raises_value_error envNoCkpt sampleArgs sampleGraph rfl rfl

/-- Claim C4: on every invocation, the Converter performs exactly one
meta-graph load, whose input map substitutes the named training-mode
control tensor with the fixed boolean constant `False` (the constant
node `phase_train_const_val`). -/
theorem converter_loads_graph_with_phase_train_false
    (env : ConvEnv) (a : ConvArgs) :
    (convert_tf_checkpoint_to_coreml env a).1.metaGraphCalls =
      [(pathJoin a.checkpoint_dir a.meta_filename,
        [(a.phase_train_tensor_name, TFConstant.mk false "phase_train_const_val")])] := by
  simp only [convert_tf_checkpoint_to_coreml]
  repeat' split
  all_goals rfl

/-- Claim C9: the serialized frozen intermediate graph the Converter
writes is a function of the environment (the on-disk checkpoint state),
the checkpoint directory, the meta filename, the output tensor names and
the control-tensor name alone; hence two runs on the same inputs — even
runs differing in output path or input tensor map — write byte-identical
frozen graphs. -/
theorem converter_frozen_graph_deterministic
    (env : ConvEnv) (a₁ a₂ : ConvArgs)
    (hdir : a₁.checkpoint_dir = a₂.checkpoint_dir)
    (hmeta : a₁.meta_filename = a₂.meta_filename)
    (hout : a₁.output_tensor_names = a₂.output_tensor_names)
    (hpt : a₁.phase_train_tensor_name = a₂.phase_train_tensor_name) :
    (convert_tf_checkpoint_to_coreml env a₁).1.filesWritten =
      (convert_tf_checkpoint_to_coreml env a₂).1.filesWritten := by
  rw [filesWritten_eq_frozenFileEffect, filesWritten_eq_frozenFileEffect,
    hdir, hmeta, hout, hpt]

/-- Witness for C9: two runs that differ in output path and input map
write the same frozen graph bytes. -/
theorem converter_frozen_graph_deterministic_witness :
    (convert_tf_checkpoint_to_coreml envFull sampleArgs).1.filesWritten =
      (convert_tf_checkpoint_to_coreml envFull sampleArgsAlt).1.filesWritten :=
  converter_frozen_graph_deterministic envFull sampleArgs sampleArgsAlt
    rfl rfl rfl rfl

/-- Claim C8: the Converter contains no exception handler, so a
framework-level error raised at any of its four framework call sites
(meta-graph import, weight restore, graph freezing, Core ML conversion)
propagates out of `convert_tf_checkpoint_to_coreml` unchanged, carrying
the framework's own message. -/
theorem converter_framework_errors_propagate_unchanged
    (env : ConvEnv) (a : ConvArgs) (m : String) :
    (env.importMetaGraph (pathJoin a.checkpoint_dir a.meta_filename)
        [(a.phase_train_tensor_name, phase_train_const)] = .error m →
      (convert_tf_checkpoint_to_coreml env a).2 = .error (.framework m)) ∧
    (∀ g ck,
      env.importMetaGraph (pathJoin a.checkpoint_dir a.meta_filename)
        [(a.phase_train_tensor_name, phase_train_const)] = .ok g →
      env.latestCheckpoint a.checkpoint_dir = some ck →
      env.restore g ck = .error m →
      (convert_tf_checkpoint_to_coreml env a).2 = .error (.framework m)) ∧
    (∀ g ck w,
      env.importMetaGraph (pathJoin a.checkpoint_dir a.meta_filename)
        [(a.phase_train_tensor_name, phase_train_const)] = .ok g →
      env.latestCheckpoint a.checkpoint_dir = some ck →
      env.restore g ck = .ok w →
      env.freezeGraph g w (a.output_tensor_names.map stripPort) = .error m →
      (convert_tf_checkpoint_to_coreml env a).2 = .error (.framework m)) ∧
    (∀ g ck w fb,
      env.importMetaGraph (pathJoin a.checkpoint_dir a.meta_filename)
        [(a.phase_train_tensor_name, phase_train_const)] = .ok g →
      env.latestCheckpoint a.checkpoint_dir = some ck →
      env.restore g ck = .ok w →
      env.freezeGraph g w (a.output_tensor_names.map stripPort) = .ok fb →
      env.ctConvert fb
        (coremlInputsLoop a.input_tensor_map_shapes a.phase_train_tensor_name)
        (a.output_tensor_names.map fun name => ⟨name, none⟩) = .error m →
      (convert_tf_checkpoint_to_coreml env a).2 = .error (.framework m)) := by
  refine ⟨fun h1 => ?_, fun g ck h1 h2 h3 => ?_, fun g ck w h1 h2 h3 h4 => ?_,
    fun g ck w fb h1 h2 h3 h4 h5 => ?_⟩ <;>
    simp [convert_tf_checkpoint_to_coreml, h1, *]

/-- Witness for C8: at each of the four failing sample environments the
run's outcome is exactly the framework's error. -/
theorem converter_framework_errors_propagate_unchanged_witness :
    (convert_tf_checkpoint_to_coreml envImportFail sampleArgs).2 =
        .error (.framework "boom-import") ∧
    (convert_tf_checkpoint_to_coreml envRestoreFail sampleArgs).2 =
        .error (.framework "boom-restore") ∧
    (convert_tf_checkpoint_to_coreml envFreezeFail sampleArgs).2 =
        .error (.framework "boom-freeze") ∧
    (convert_tf_checkpoint_to_coreml envConvertFail sampleArgs).2 =
        .error (.framework "boom-convert") :=
  ⟨(converter_framework_errors_propagate_unchanged envImportFail sampleArgs
      "boom-import").1 rfl,
   (converter_framework_errors_propagate_unchanged envRestoreFail sampleArgs
      "boom-restore").2.1 sampleGraph
      (sampleArgs.checkpoint_dir ++ "/model.ckpt-250000") rfl rfl rfl,
   (converter_framework_errors_propagate_unchanged envFreezeFail sampleArgs
      "boom-freeze").2.2.1 sampleGraph
      (sampleArgs.checkpoint_dir ++ "/model.ckpt-250000") [("w", [1, 2])]
      rfl rfl rfl rfl,
   (converter_framework_errors_propagate_unchanged envConvertFail sampleArgs
      "boom-convert").2.2.2 sampleGraph
      (sampleArgs.checkpoint_dir ++ "/model.ckpt-250000") [("w", [1, 2])]
      [10, 20, 30] rfl rfl rfl rfl rfl⟩

/-- Claim C2: in any environment in which `ct.convert` follows the
coremltools naming contract (the produced model's declared outputs are
the requested output tensors' names with ports stripped), every model
artifact a successful Converter run saves declares output names that are
exactly the configured output tensor list with the `':port'` suffix
stripped from each name. -/
theorem converter_output_names_match_stripped_list
    (env : ConvEnv) (a : ConvArgs)
    (hframework : ∀ fb ins outs m, env.ctConvert fb ins outs = .ok m →
      m.declaredOutputs = outs.map fun t => stripPort t.name)
    (hok : (convert_tf_checkpoint_to_coreml env a).2 = .ok ())
    (p : String) (m : MLModel)
    (hmem : (p, m) ∈ (convert_tf_checkpoint_to_coreml env a).1.savedModels) :
    m.declaredOutputs = a.output_tensor_names.map stripPort := by
  simp only [convert_tf_checkpoint_to_coreml] at hok hmem
  repeat' split at hok
  all_goals simp_all
  rename_i fb mlmodel hconvert
  obtain ⟨-, rfl⟩ := hmem
  rw [hframework _ _ _ _ hconvert, List.map_map]
  rfl

/-- Witness for C2 at the full sample environment: the saved model's
declared outputs are the configured list with ports stripped. -/
theorem converter_output_names_match_stripped_list_witness :
    ["tower_0/warping_model/Tanh"] = sampleArgs.output_tensor_names.map stripPort :=
  converter_output_names_match_stripped_list envFull sampleArgs
    (fun fb ins outs m h => by
      simp only [envFull] at h
      cases h
      rfl)
    rfl
    "OriginalModel/R/RightEyeWarp.mlpackage"
    (MLModel.mk ["inputs/input_img", "inputs/input_fp", "inputs/input_ang"]
      ["tower_0/warping_model/Tanh"])
    (by decide)

/-- Claim C3: every call the Converter makes to the model converter
declares as input types exactly the entries of the input tensor map
whose key differs from `phase_train_tensor_name`, in order, each with
its port stripped — entries keyed by the control tensor are skipped, and
every other entry contributes exactly one declared input. -/
theorem converter_declared_inputs_exclude_phase_train
    (env : ConvEnv) (a : ConvArgs)
    (call : List Nat × List CTTensorType × List CTTensorType)
    (hmem : call ∈ (convert_tf_checkpoint_to_coreml env a).1.ctConvertCalls) :
    call.2.1 =
      (a.input_tensor_map_shapes.filter
          fun p => p.1 ≠ a.phase_train_tensor_name).map
        fun p => (⟨stripPort p.1, p.2⟩ : CTTensorType) := by
  simp only [convert_tf_checkpoint_to_coreml] at hmem
  repeat' split at hmem
  all_goals simp_all [coremlInputsLoop_eq_filter_map]

/-- Witness for C3 at the full sample environment: the recorded
`ct.convert` call's declared inputs are the three non-control entries
with ports stripped. -/
theorem converter_declared_inputs_exclude_phase_train_witness :
    (([10, 20, 30],
       [(⟨"inputs/input_img", some [1, 48, 64, 3]⟩ : CTTensorType),
        ⟨"inputs/input_fp", some [1, 48, 64, 12]⟩,
        ⟨"inputs/input_ang", some [1, 2]⟩],
       [(⟨"tower_0/warping_model/Tanh:0", none⟩ : CTTensorType)]) :
        List Nat × List CTTensorType × List CTTensorType).2.1 =
      (sampleArgs.input_tensor_map_shapes.filter
          fun p => p.1 ≠ sampleArgs.phase_train_tensor_name).map
        fun p => (⟨stripPort p.1, p.2⟩ : CTTensorType) :=
  converter_declared_inputs_exclude_phase_train envFull sampleArgs _ (by decide)

/-! ### Helper characterizations of the Inspector's listing -/

/-- Helper: extract the data of an operation-listing line from a console
event (the name and type printed by the main listing loop). -/
def opListedData : InspEvent → Option (String × String)
  | .opListed name type => some (name, type)
  | _ => none

/-- Helper: the listing block of one operation contains exactly one
operation line, carrying that operation's name and type. -/
theorem opListedData_listOpEvents (op : Operation) :
    (listOpEvents op).filterMap opListedData = [(op.name, op.type)] := by
  simp only [listOpEvents]
  split <;> simp [opListedData, List.filterMap_cons, List.filterMap_map,
    List.filterMap_eq_nil_iff]

/-- Helper: the main listing loop prints exactly one operation line per
graph operation, in graph order. -/
theorem opListedData_flatMap_listOpEvents (ops : List Operation) :
    (ops.flatMap listOpEvents).filterMap opListedData =
      ops.map fun op => (op.name, op.type) := by
  induction ops with
  | nil => rfl
  | cons hd tl ih =>
    simp [List.flatMap_cons, List.filterMap_append, opListedData_listOpEvents, ih]

/-- Helper: the placeholder section prints no operation-listing lines. -/
theorem opListedData_flatMap_listPlaceholderEvents (ops : List Operation) :
    (ops.flatMap listPlaceholderEvents).filterMap opListedData = [] := by
  induction ops with
  | nil => rfl
  | cons hd tl ih =>
    simp [List.flatMap_cons, List.filterMap_append, ih, listPlaceholderEvents,
      opListedData, List.filterMap_cons, List.filterMap_map, List.filterMap_eq_nil_iff]

/-! ### Sample environments for the Inspector witnesses -/

/-- Sample Inspector environment in which every call succeeds over
`sampleGraph`. -/
def inspEnvFull : InspEnv :=
  { importMetaGraph := fun _ => .ok sampleGraph
    latestCheckpoint := fun dir => some (dir ++ "/model.ckpt-250000")
    restore := fun _ _ => .ok ()
    pathExists := fun _ => true }

/-- Sample Inspector environment whose meta file is missing. -/
def inspEnvNoMeta : InspEnv :=
  { inspEnvFull with pathExists := fun _ => false }

/-- Sample Inspector environment whose directory holds no checkpoint. -/
def inspEnvNoCkpt : InspEnv :=
  { inspEnvFull with latestCheckpoint := fun _ => none }

/-- Sample Inspector environment whose weight restore raises. -/
def inspEnvRestoreFail : InspEnv :=
  { inspEnvFull with restore := fun _ _ => .error "boom-inspect" }

/-! ### Inspector claims -/

/-- Claim C5: for every successfully loaded and restored graph, the
Inspector's operation listing lists every operation exactly once with
its name and type in graph order (hence the number of listed operations
is the graph's operation count), every placeholder-type operation also
appears in the placeholder section, and every tensor an operation
produces is listed with its name, shape and data type. -/
theorem inspector_lists_all_operations
    (env : InspEnv) (dir meta : String) (g : Graph) (ck : String)
    (himp : env.importMetaGraph (pathJoin dir meta) = .ok g)
    (hck : env.latestCheckpoint dir = some ck)
    (hres : env.restore g ck = .ok ()) :
    ((inspect_checkpoint_model env dir meta).1.filterMap opListedData =
        g.operations.map fun op => (op.name, op.type)) ∧
    (∀ op ∈ g.operations, op.type = "Placeholder" →
      InspEvent.placeholderListed op.name ∈
        (inspect_checkpoint_model env dir meta).1) ∧
    (∀ op ∈ g.operations, ∀ t ∈ op.outputs,
      InspEvent.tensorListed t.name t.shape t.dtype ∈
        (inspect_checkpoint_model env dir meta).1) := by
  simp only [inspect_checkpoint_model, himp, hck, hres]
  refine ⟨?_, ?_, ?_⟩
  · simp only [List.filterMap_append, List.filterMap_cons,
      opListedData_flatMap_listOpEvents, opListedData]
    split
    · simp [opListedData]
    · simp [opListedData_flatMap_listPlaceholderEvents, opListedData]
  · intro op hop htype
    have hopf : op ∈ g.operations.filter fun o => o.type = "Placeholder" :=
      List.mem_filter.mpr ⟨hop, by simp [htype]⟩
    have hne : (g.operations.filter fun o => o.type = "Placeholder").isEmpty = false :=
      List.isEmpty_eq_false.mpr (List.ne_nil_of_mem hopf)
    have hmem : InspEvent.placeholderListed op.name ∈
        (g.operations.filter fun o => o.type = "Placeholder").flatMap
          listPlaceholderEvents := by
      refine List.mem_flatMap.mpr ⟨op, hopf, ?_⟩
      simp [listPlaceholderEvents]
    simp only [hne, Bool.false_eq_true, if_false, List.mem_append]
    tauto
  · intro op hop t ht
    have hlen : 0 < op.outputs.length :=
      List.length_pos.mpr (List.ne_nil_of_mem ht)
    have h1 : InspEvent.tensorListed t.name t.shape t.dtype ∈ listOpEvents op := by
      simp only [listOpEvents, hlen, if_pos, List.mem_cons]
      refine Or.inr (Or.inr ?_)
      exact List.mem_map.mpr ⟨t, ht, rfl⟩
    have h2 : InspEvent.tensorListed t.name t.shape t.dtype ∈
        g.operations.flatMap listOpEvents :=
      List.mem_flatMap.mpr ⟨op, hop, h1⟩
    simp only [List.mem_append]
    tauto

/-- Witness for C5 at the full sample environment and graph. -/
theorem inspector_lists_all_operations_witness :
    ((inspect_checkpoint_model inspEnvFull "OriginalModel/L" "L.meta").1.filterMap
        opListedData = sampleGraph.operations.map fun op => (op.name, op.type)) ∧
    InspEvent.placeholderListed "inputs/input_img" ∈
      (inspect_checkpoint_model inspEnvFull "OriginalModel/L" "L.meta").1 ∧
    InspEvent.tensorListed "inputs/input_img:0" [none, some 48, some 64, some 3]
        "float32" ∈
      (inspect_checkpoint_model inspEnvFull "OriginalModel/L" "L.meta").1 :=
  have h := inspector_lists_all_operations inspEnvFull "OriginalModel/L" "L.meta"
    sampleGraph ("OriginalModel/L" ++ "/model.ckpt-250000") rfl rfl rfl
  ⟨h.1,
   h.2.1 ⟨"inputs/input_img", "Placeholder",
      [⟨"inputs/input_img:0", [none, some 48, some 64, some 3], "float32"⟩]⟩
     (by decide) rfl,
   h.2.2 ⟨"inputs/input_img", "Placeholder",
      [⟨"inputs/input_img:0", [none, some 48, some 64, some 3], "float32"⟩]⟩
     (by decide)
     ⟨"inputs/input_img:0", [none, some 48, some 64, some 3], "float32"⟩
     (by decide)⟩

/-- Claim C6: when the configured meta file does not exist, the
Inspector's main block prints the missing-file error and stops:
`inspect_checkpoint_model` is never called and no exception escapes. -/
theorem inspector_missing_meta_aborts_before_load (env : InspEnv)
    (h : env.pathExists (pathJoin "OriginalModel/L" "L.meta") = false) :
    inspectorMain env =
      ([.metaNotFound (pathJoin "OriginalModel/L" "L.meta")], false, .ok ()) := by
  simp [inspectorMain, h]

/-- Witness for C6 at the missing-meta sample environment. -/
theorem inspector_missing_meta_aborts_before_load_witness :
    inspectorMain inspEnvNoMeta =
      ([.metaNotFound (pathJoin "OriginalModel/L" "L.meta")], false, .ok ()) :=
  inspector_missing_meta_aborts_before_load inspEnvNoMeta rfl

/-- Claim C7: every exception raised during the Inspector's
load/restore/inspection is caught by the main block's handler, which
prints its message and a traceback and returns normally, propagating
nothing. -/
theorem inspector_catches_and_reports_errors (env : InspEnv) (m : String)
    (hpath : env.pathExists (pathJoin "OriginalModel/L" "L.meta") = true)
    (herr : (inspect_checkpoint_model env "OriginalModel/L" "L.meta").2 = .error m) :
    inspectorMain env =
      ((inspect_checkpoint_model env "OriginalModel/L" "L.meta").1 ++
        [.errorDuring m, .tracebackPrinted], true, .ok ()) := by
  simp [inspectorMain, hpath, herr]

/-- Witness for C7 at the sample environment whose restore raises. -/
theorem inspector_catches_and_reports_errors_witness :
    inspectorMain inspEnvRestoreFail =
      ((inspect_checkpoint_model inspEnvRestoreFail "OriginalModel/L" "L.meta").1 ++
        [.errorDuring "boom-inspect", .tracebackPrinted], true, .ok ()) :=
  inspector_catches_and_reports_errors inspEnvRestoreFail "boom-inspect" rfl rfl

/-- Claim C10: when the meta graph loads but no checkpoint is found,
`inspect_checkpoint_model` prints exactly the no-checkpoint error line
and returns normally — no exception, and no operation or placeholder
listing. -/
theorem inspector_no_checkpoint_prints_error_and_returns
    (env : InspEnv) (dir meta : String) (g : Graph)
    (himp : env.importMetaGraph (pathJoin dir meta) = .ok g)
    (hck : env.latestCheckpoint dir = none) :
    inspect_checkpoint_model env dir meta = ([.errorNoCheckpoint dir], .ok ()) := by
  simp [inspect_checkpoint_model, himp, hck]

/-- Witness for C10 at the no-checkpoint sample environment. -/
theorem inspector_no_checkpoint_prints_error_and_returns_witness :
    inspect_checkpoint_model inspEnvNoCkpt "OriginalModel/L" "L.meta" =
      ([.errorNoCheckpoint "OriginalModel/L"], .ok ()) :=
  inspector_no_checkpoint_prints_error_and_returns inspEnvNoCkpt
    "OriginalModel/L" "L.meta" sampleGraph rfl rfl

end EyeContact
